import Mathlib

/-!
Verification of the `dccautomation` launch/remote-test core against its
natural-language specification.

Shallow embedding of:
- `dccautomation/common.py` (status codes and environment-variable names);
- `dccautomation/bootstrap.py` (`_one_up_dir`, `ServerProc`, the `Handshaker`
  context manager and `start_server_process`);
- `dccautomation/testcase.py` (`RemoteTestCase.create_client`,
  `RemoteTestCase._wrapped_test` and `RemoteTestCase._wrapped_test_remote`).

Python dictionaries over string keys become association lists, the process
world (os.environ, the zmq rendezvous socket, `subprocess.Popen`,
`atexit.register`) becomes an explicit `World` record plus an event trace,
and exceptions become an explicit `PyResult` sum.
-/

namespace Dcc

/-! ## common.py -/

/-- Constant `common.SUCCESS` (common.py line 3). -/
def SUCCESS : Nat := 200

/-- Constant `common.INVALID_METHOD` (common.py line 4). -/
def INVALID_METHOD : Nat := 400

/-- Constant `common.UNHANDLED_ERROR` (common.py line 5). -/
def UNHANDLED_ERROR : Nat := 503

/-- Constant `common.ENV_CONFIGNAME` (common.py line 7). -/
def ENV_CONFIGNAME : String := "DCCAUTO_CONFIGNAME"

/-- Constant `common.ENV_HANDSHAKE` (common.py line 8). -/
def ENV_HANDSHAKE : String := "DCCAUTO_HANDSHAKE"

/-- The complete list of response status codes defined by common.py
(lines 3-5): these three module-level constants are all of them. -/
def statusCodes : List Nat := [SUCCESS, INVALID_METHOD, UNHANDLED_ERROR]

/-- Python attribute lookup on the `common` module, restricted to its
string-valued constants (common.py lines 7-8).  `none` models the
`AttributeError` Python raises for a name the module does not define. -/
def commonStringAttr (name : String) : Option String :=
  if name = "ENV_CONFIGNAME" then some ENV_CONFIGNAME
  else if name = "ENV_HANDSHAKE" then some ENV_HANDSHAKE
  else none

/-! ## Python dictionaries (string-keyed), as used for `os.environ` copies -/

/-- Assignment `d[k] = v` on a Python dict modelled as an association list with unique
keys: replace the value at the first occurrence of the key, else append. -/
def envSet : List (String × String) → String → String → List (String × String)
  | [], k, v => [(k, v)]
  | (k0, v0) :: rest, k, v =>
    if k0 = k then (k, v) :: rest else (k0, v0) :: envSet rest k v

/-- Lookup `d.get(k)` on a Python dict modelled as an association list. -/
def envGet : List (String × String) → String → Option String
  | [], _ => none
  | (k0, v0) :: rest, k => if k0 = k then some v0 else envGet rest k

/-! ## POSIX path fragments used by `_one_up_dir` -/

/-- Helper for `os.path.dirname` on the reversed character list: drop
characters up to and including the first separator. -/
def dropUntilSlash : List Char → List Char
  | [] => []
  | c :: rest => if c = '/' then rest else dropUntilSlash rest

/-- Function `os.path.dirname` for POSIX-style paths: everything before the last
separator (empty when there is none). -/
def dirname (s : String) : String :=
  String.mk (dropUntilSlash s.data.reverse).reverse

/-- Function `bootstrap._one_up_dir` (bootstrap.py lines 9-10):
`os.path.dirname(os.path.dirname(f))`. -/
def one_up_dir (f : String) : String := dirname (dirname f)

/-- Constant `os.path.pathsep` on a POSIX platform, as used at bootstrap.py line 49. -/
def pathsep : String := ":"

/-! ## Launch configuration and process handles -/

/-- The externally supplied LaunchConfig instance: `cfgname()` is its
identity string and `popen_args()` its argv (spec section 3, "LaunchConfig"). -/
structure Config where
  cfgnameVal : String
  popenArgsVal : List String
  deriving DecidableEq, Repr

/-- Method `config.cfgname()` as called at bootstrap.py line 31. -/
def Config.cfgname (c : Config) : String := c.cfgnameVal

/-- Method `config.popen_args()` as called at bootstrap.py line 50. -/
def Config.popen_args (c : Config) : List String := c.popenArgsVal

/-- A `subprocess.Popen` handle, identified by the pid the spawn produced. -/
structure Popen where
  pid : Nat
  deriving DecidableEq, Repr

/-- Class `bootstrap.ServerProc` (bootstrap.py lines 13-18): exactly the three
fields its `__init__` stores. -/
structure ServerProc where
  popen : Popen
  endpoint : String
  config : Config
  deriving DecidableEq, Repr

/-! ## Exceptions and results -/

/-- The Python exceptions the embedded code can raise. -/
inductive PyError where
  | attributeError (msg : String)
  | runtimeError (msg : String)
  | assertionError (msg : String)
  | osError (msg : String)
  deriving DecidableEq, Repr

/-- A Python call that either returns a value or raises. -/
inductive PyResult (α : Type) where
  | ok (val : α)
  | raised (err : PyError)
  deriving DecidableEq, Repr

/-! ## The driver-side world and observable events -/

/-- The parts of the outside world `start_server_process` touches:
the driver environment, the ephemeral address the rendezvous bind picks,
the endpoint message the spawned process will send on that socket,
whether the spawn itself fails, the `__file__` locations the PYTHONPATH
extension reads, and the pid a successful spawn produces. -/
structure World where
  osEnviron : List (String × String)
  freshEndpoint : String
  appEndpoint : String
  popenRaises : Bool
  bootstrapFile : String
  zmqFile : String
  newPid : Nat
  deriving DecidableEq, Repr

/-- Observable side effects of a launch, in program order. -/
inductive WEvent where
  | bindRandom (endpoint : String)
  | popenSpawn (args : List String) (env : List (String × String))
  | atexitRegisterKill (pid : Nat)
  | recvMsg (msg : String)
  | sendMsg (msg : String)
  | closeSocket
  deriving DecidableEq, Repr

/-- Is this event the spawning of a process? -/
def isSpawnEvent : WEvent → Bool
  | .popenSpawn _ _ => true
  | _ => false

/-- Is this event a receive on the rendezvous socket? -/
def isRecvEvent : WEvent → Bool
  | .recvMsg _ => true
  | _ => false

/-- What one call to `start_server_process` produced: its return value or
exception, the driver environment afterwards, and the event trace. -/
structure LaunchOutcome where
  result : PyResult ServerProc
  osEnvironAfter : List (String × String)
  events : List WEvent
  deriving DecidableEq, Repr

/-! ## bootstrap.py: Handshaker and start_server_process -/

/-- The environment dictionary handed to `subprocess.Popen`
(bootstrap.py lines 42-50), given the name `key` under which
`Handshaker.__enter__` stores the rendezvous address: a copy of
`os.environ` (line 42) with the rendezvous address (line 30), the config
identity string (line 31), and the extended PYTHONPATH (lines 44-49)
written into it. -/
def spawnEnv (key : String) (config : Config) (w : World) : List (String × String) :=
  let env1 := envSet w.osEnviron key w.freshEndpoint
  let env2 := envSet env1 ENV_CONFIGNAME config.cfgname
  let pythonpath := (envGet env2 "PYTHONPATH").getD ""
  envSet env2 "PYTHONPATH"
    (pythonpath ++ pathsep ++ one_up_dir w.bootstrapFile
      ++ pathsep ++ one_up_dir w.zmqFile)

/-- The body of `start_server_process` under a resolved handshake
environment-variable name `key` (bootstrap.py lines 28-38 and 41-52):
`Handshaker.__enter__` binds a REP socket to a random address and writes
the two entries into the environment copy; the `with` body extends
PYTHONPATH, spawns the process with that environment and registers
`proc.kill` with atexit; `Handshaker.__exit__` (only when no exception is
in flight) receives one message, sends an empty reply, closes the socket;
the received message becomes the `ServerProc` endpoint. -/
def launchWithKey (key : String) (config : Config) (w : World) : LaunchOutcome :=
  if w.popenRaises then
    { result := .raised (.osError "Popen failed")
      osEnvironAfter := w.osEnviron
      events := [.bindRandom w.freshEndpoint] }
  else
    { result := .ok
        { popen := { pid := w.newPid }
          endpoint := w.appEndpoint
          config := config }
      osEnvironAfter := w.osEnviron
      events :=
        [.bindRandom w.freshEndpoint,
         .popenSpawn config.popen_args (spawnEnv key config w),
         .atexitRegisterKill w.newPid,
         .recvMsg w.appEndpoint,
         .sendMsg "",
         .closeSocket] }

/-- Faithful embedding of `bootstrap.start_server_process` (bootstrap.py
lines 41-52): `Handshaker.__enter__` first binds the rendezvous socket
(line 29) and then reads `common.ENV_HANDSHAKE_ENDPOINT` (line 30), an
attribute `common.py` does not define, so the lookup raises
`AttributeError` after the bind; since `__enter__` raised, `__exit__`
never runs and nothing is spawned. -/
def start_server_process (config : Config) (w : World) : LaunchOutcome :=
  match commonStringAttr "ENV_HANDSHAKE_ENDPOINT" with
  | none =>
    { result := .raised
        (.attributeError "module dccautomation.common has no attribute ENV_HANDSHAKE_ENDPOINT")
      osEnvironAfter := w.osEnviron
      events := [.bindRandom w.freshEndpoint] }
  | some key => launchWithKey key config w

/-- Counterfactual repaired launch pipeline, used only for the surplus
conjuncts of claim C9: what `start_server_process` would do if
bootstrap.py line 30 read the `ENV_HANDSHAKE` constant that common.py
actually defines instead of the undefined `ENV_HANDSHAKE_ENDPOINT` (the
defect established by claim C2).  The faithful embedding of the code as
written is `start_server_process`, which raises on every call; no claim
about the program's behavior is settled on this repaired variant. -/
def start_server_process_model (config : Config) (w : World) : LaunchOutcome :=
  launchWithKey ENV_HANDSHAKE config w

/-! ## testcase.py: RemoteTestCase._wrapped_test_remote -/

/-- One observable step of the remote test entry point. -/
inductive REvent where
  | reloadModule (m : Nat)
  | setUpRun
  | bodyRun
  | tearDownRun
  | cleanupRun (label : Nat)
  deriving DecidableEq, Repr

/-- Is this remote-run event the run of a registered cleanup? -/
def isCleanupEvent : REvent → Bool
  | .cleanupRun _ => true
  | _ => false

/-- One execution scenario for `_wrapped_test_remote`: which of the
manually driven phases raise, and the registered cleanups.  Cleanups are
`(label, raises)` pairs held in `self._cleanups` in registration order,
exactly as `unittest.TestCase.addCleanup` appends them. -/
structure RemoteRunInput where
  reloadModules : List Nat
  setUpRaises : Bool
  bodyRaises : Bool
  tearDownRaises : Bool
  cleanups : List (Nat × Bool)
  deriving DecidableEq, Repr

/-- The cleanup loop of `_wrapped_test_remote` (testcase.py lines
122-124) run over the registration list read back to front, which is
what `self._cleanups.pop(-1)` does: run each cleanup; a raising cleanup
propagates immediately, abandoning the rest.  Returns the events and
whether the loop finished without an exception. -/
def runCleanupsFromLast : List (Nat × Bool) → List REvent × Bool
  | [] => ([], true)
  | (label, raises) :: rest =>
    if raises then ([REvent.cleanupRun label], false)
    else
      let r := runCleanupsFromLast rest
      (REvent.cleanupRun label :: r.1, r.2)

/-- The cleanup loop on the registration-ordered list (testcase.py lines
122-124): most recently registered first. -/
def runCleanups (cs : List (Nat × Bool)) : List REvent × Bool :=
  runCleanupsFromLast cs.reverse

/-- Faithful embedding of `RemoteTestCase._wrapped_test_remote`
(testcase.py lines 105-124): reload the requested modules (reloading is
modelled as a black-box call that returns normally), then
`try: setUp(); test() finally: tearDown(); <cleanup loop>`.  Python
`finally` semantics: `tearDown` always runs; if `tearDown` raises, the
rest of the `finally` suite — the cleanup loop — is abandoned and that
exception propagates; otherwise the cleanup loop runs and any pending
exception from the `try` suite resumes after it.  Returns the event
trace and whether the whole call returned without an exception. -/
def wrappedTestRemote (inp : RemoteRunInput) : List REvent × Bool :=
  let reloadEvs := inp.reloadModules.map REvent.reloadModule
  let tryEvs :=
    if inp.setUpRaises then [REvent.setUpRun] else [REvent.setUpRun, REvent.bodyRun]
  let tryOk := !inp.setUpRaises && !inp.bodyRaises
  if inp.tearDownRaises then
    (reloadEvs ++ tryEvs ++ [REvent.tearDownRun], false)
  else
    let c := runCleanups inp.cleanups
    (reloadEvs ++ tryEvs ++ [REvent.tearDownRun] ++ c.1, tryOk && c.2)

/-! ## testcase.py: RemoteTestCase._wrapped_test -/

/-- The data one test invocation feeds into the code fragment
`_wrapped_test` builds: `self.__module__`, `type(self).__name__`, the
current test method name, and the `reload_test` class attribute. -/
structure TestInvocation where
  testmodule : String
  testcase : String
  testfunc : String
  reload_test : Bool
  deriving DecidableEq, Repr

/-- Expression `self.__module__.replace(".", "_")` (testcase.py line 100); Python
`str.replace` with single-character arguments is a character map. -/
def testalias (testmodule : String) : String :=
  String.mk (testmodule.data.map (fun c => if c = '.' then '_' else c))

/-- The formatted lines of the code fragment `_wrapped_test` builds
(testcase.py lines 90-102): the two fixed import lines, the reload line
when `self.reload_test` is set, then instantiation and the remote-run
call; `.format` of each placeholder template becomes concatenation of
its fragments. -/
def wrappedTestLines (t : TestInvocation) : List String :=
  let lines0 :=
    ["import " ++ t.testmodule ++ " as " ++ testalias t.testmodule,
     "from dccautomation.compat import reload"]
  let lines1 :=
    if t.reload_test then lines0 ++ ["reload(" ++ testalias t.testmodule ++ ")"]
    else lines0
  lines1 ++
    ["tc = " ++ testalias t.testmodule ++ "." ++ t.testcase
       ++ "(\"" ++ t.testfunc ++ "\")",
     "tc._wrapped_test_remote()"]

/-- A call issued on the client by the driver-side test wrapper. -/
inductive ClientCall where
  | exec_ (code : String)
  deriving DecidableEq, Repr

/-- Faithful embedding of `RemoteTestCase._wrapped_test` (testcase.py
lines 82-103): join the lines with newlines and issue the single
`client.exec_` call (line 103); the returned list is every client call
the method makes, in order. -/
def wrappedTest (t : TestInvocation) : List ClientCall :=
  [ClientCall.exec_ (String.intercalate "\n" (wrappedTestLines t))]

/-! ## testcase.py: RemoteTestCase.create_client -/

/-- The class attributes `create_client` consults: `cls.config` is
`none` when the attribute is left at its default `None`, otherwise the
config instance that `cls.config()` constructs; `start_proc` is the
class flag of the same name. -/
structure TestClassAttrs where
  config : Option Config
  start_proc : Bool
  deriving DecidableEq, Repr

/-- Class `dccautomation.client.Client` as `create_client` constructs it:
a wrapper around the launched `ServerProc`. -/
structure Client where
  serverproc : ServerProc
  deriving DecidableEq, Repr

/-- What one call to `RemoteTestCase.create_client` produced. -/
structure CreateClientOutcome where
  result : PyResult Client
  events : List WEvent
  deriving DecidableEq, Repr

/-- Faithful embedding of `RemoteTestCase.create_client` (testcase.py
lines 35-46): raise `RuntimeError` when `cls.config is None` (lines
40-42); otherwise instantiate the config (line 43), `assert
cls.start_proc` (line 44, an `AssertionError` when false), and only then
call `bootstrap.start_server_process` (line 45) and wrap the result in a
`Client` (line 46). -/
def create_client (cls : TestClassAttrs) (w : World) : CreateClientOutcome :=
  match cls.config with
  | none =>
    { result := .raised
        (.runtimeError "config must be set or this method must be overridden.")
      events := [] }
  | some configInstance =>
    if cls.start_proc = false then
      { result := .raised (.assertionError "Not starting proc is not yet supported.")
        events := [] }
    else
      let launch := start_server_process configInstance w
      match launch.result with
      | .raised e => { result := .raised e, events := launch.events }
      | .ok proc => { result := .ok { serverproc := proc }, events := launch.events }

/-! ## Helper lemmas: dictionaries, paths, strings, cleanup traces -/

/-- Looking up the key just written into a dict copy yields the written value. -/
theorem envGet_envSet_self : ∀ (env : List (String × String)) (k v : String),
    envGet (envSet env k v) k = some v
  | [], k, v => by simp [envSet, envGet]
  | (k0, v0) :: rest, k, v => by
    by_cases h : k0 = k
    · simp [envSet, envGet, h]
    · simp [envSet, envGet, h, envGet_envSet_self rest k v]

/-- Writing one key into a dict copy leaves every other key unchanged. -/
theorem envGet_envSet_ne : ∀ (env : List (String × String)) (k v k2 : String),
    k ≠ k2 → envGet (envSet env k v) k2 = envGet env k2
  | [], k, v, k2, h => by simp [envSet, envGet, h]
  | (k0, v0) :: rest, k, v, k2, h => by
    by_cases h0 : k0 = k
    · subst h0
      simp [envSet, envGet, h]
    · by_cases h2 : k0 = k2
      · subst h2
        simp [envSet, envGet, h0]
      · simp [envSet, envGet, h0, h2, envGet_envSet_ne rest k v k2 h]

/-- Characters that are not the separator are skipped by `dropUntilSlash`. -/
theorem dropUntilSlash_append_noslash : ∀ (l m : List Char), (∀ c ∈ l, c ≠ '/') →
    dropUntilSlash (l ++ m) = dropUntilSlash m
  | [], m, _ => rfl
  | c :: rest, m, h => by
    have hc : c ≠ '/' := h c (by simp)
    simp only [List.cons_append, dropUntilSlash, if_neg hc]
    exact dropUntilSlash_append_noslash rest m (fun x hx => h x (by simp [hx]))

/-- Appending strings appends their character lists. -/
theorem string_data_append (a b : String) : (a ++ b).data = a.data ++ b.data := by
  cases a
  cases b
  rfl

/-- Function `os.path.dirname` strips a final separator-free component. -/
theorem dirname_append_slash (a b : String) (h : ∀ c ∈ b.data, c ≠ '/') :
    dirname (a ++ "/" ++ b) = a := by
  unfold dirname
  rw [string_data_append, string_data_append]
  have hsl : (("/" : String)).data = ['/'] := rfl
  rw [hsl, List.reverse_append, List.reverse_append]
  have hb : ∀ c ∈ b.data.reverse, c ≠ '/' := by
    intro c hc
    exact h c (List.mem_reverse.mp hc)
  rw [dropUntilSlash_append_noslash b.data.reverse _ hb]
  have hstep : dropUntilSlash (['/'].reverse ++ a.data.reverse) = a.data.reverse := by
    simp [dropUntilSlash]
  rw [hstep, List.reverse_reverse]

/-- Two strings whose first characters differ are different strings. -/
theorem string_ne_head (s t : String) (c d : Char) (hc : s.data.head? = some c)
    (hd : t.data.head? = some d) (hne : c ≠ d) : s ≠ t := by
  intro e
  rw [e] at hc
  rw [hc] at hd
  exact hne (Option.some.inj hd)

/-- Every event the cleanup loop emits is the run of some cleanup. -/
theorem runCleanupsFromLast_mem : ∀ (cs : List (Nat × Bool)) (e : REvent),
    e ∈ (runCleanupsFromLast cs).1 → ∃ l, e = REvent.cleanupRun l
  | [], e, h => absurd h (by simp [runCleanupsFromLast])
  | (label, raises) :: rest, e, h => by
    by_cases hr : raises = true
    · simp only [runCleanupsFromLast, hr, if_true, List.mem_singleton] at h
      exact ⟨label, h⟩
    · simp only [runCleanupsFromLast, hr, if_false, Bool.false_eq_true, List.mem_cons] at h
      rcases h with h | h
      · exact ⟨label, h⟩
      · exact runCleanupsFromLast_mem rest e h

/-! ## Claim theorems -/

/-- Claim C8: the protocol defines exactly three status codes — SUCCESS,
INVALID_METHOD and UNHANDLED_ERROR — and their numeric values (200, 400,
503) are pairwise distinct, so a response status identifies exactly one
outcome. -/
theorem claim_C8_status_codes_distinct :
    statusCodes = [SUCCESS, INVALID_METHOD, UNHANDLED_ERROR] ∧
    statusCodes.length = 3 ∧ statusCodes.Nodup := by
  refine ⟨rfl, rfl, ?_⟩
  decide

/-- Claim C1 (code bug): at the spec's own test vector — cleanups A, B, C
registered (labels 1, 2, 3, none raising), setUp and the body returning
normally, tearDown raising — `_wrapped_test_remote` runs no cleanup at
all: the exception from `tearDown()` inside the `finally` suite
abandons the cleanup loop that follows it, so the trace ends at the
tearDown event and the claimed C, B, A cleanup runs never happen. -/
theorem claim_C1_teardown_raise_skips_cleanups :
    (wrappedTestRemote ⟨[], false, false, true, [(1, false), (2, false), (3, false)]⟩)
      = ([REvent.setUpRun, REvent.bodyRun, REvent.tearDownRun], false) ∧
    ((wrappedTestRemote ⟨[], false, false, true,
        [(1, false), (2, false), (3, false)]⟩).1.filter (fun e => isCleanupEvent e))
      = [] :=
  ⟨rfl, rfl⟩

/-- Claim C4: on every execution of `_wrapped_test_remote`, whatever raises,
the trace contains the tearDown event, it is unique, every body (and
setUp) event precedes it, and only cleanup events follow it: tearDown is
always invoked after the test body. -/
theorem claim_C4_teardown_always_after_body (inp : RemoteRunInput) :
    ∃ pre post, (wrappedTestRemote inp).1 = pre ++ REvent.tearDownRun :: post ∧
      REvent.tearDownRun ∉ pre ∧ REvent.tearDownRun ∉ post ∧
      REvent.bodyRun ∉ post ∧ REvent.setUpRun ∉ post := by
  refine ⟨inp.reloadModules.map REvent.reloadModule ++
      (if inp.setUpRaises then [REvent.setUpRun] else [REvent.setUpRun, REvent.bodyRun]),
    if inp.tearDownRaises then [] else (runCleanups inp.cleanups).1,
    ?_, ?_, ?_, ?_, ?_⟩
  · rw [wrappedTestRemote]
    by_cases ht : inp.tearDownRaises = true
    · simp [ht]
    · simp [ht]
  · intro hmem
    rcases List.mem_append.mp hmem with h | h
    · simp at h
    · by_cases hs : inp.setUpRaises = true
      · simp [hs] at h
      · simp [hs] at h
  · by_cases ht : inp.tearDownRaises = true
    · simp [ht]
    · simp only [ht, Bool.false_eq_true, if_false]
      intro hmem
      obtain ⟨l, hl⟩ := runCleanupsFromLast_mem _ _ hmem
      exact REvent.noConfusion hl
  · by_cases ht : inp.tearDownRaises = true
    · simp [ht]
    · simp only [ht, Bool.false_eq_true, if_false]
      intro hmem
      obtain ⟨l, hl⟩ := runCleanupsFromLast_mem _ _ hmem
      exact REvent.noConfusion hl
  · by_cases ht : inp.tearDownRaises = true
    · simp [ht]
    · simp only [ht, Bool.false_eq_true, if_false]
      intro hmem
      obtain ⟨l, hl⟩ := runCleanupsFromLast_mem _ _ hmem
      exact REvent.noConfusion hl

/-- Claim C5: per test invocation `_wrapped_test` issues exactly one remote
execution request; its code fragment is the newline join of lines that,
in order, import the test module (first line), make `reload` available,
reload the module exactly when `reload_test` is set, instantiate the
test case class by name with the current test method name, and call
`_wrapped_test_remote`. -/
theorem claim_C5_single_exec_request_structure (t : TestInvocation) :
    (wrappedTest t).length = 1 ∧
    wrappedTest t = [ClientCall.exec_ (String.intercalate "\n" (wrappedTestLines t))] ∧
    (wrappedTestLines t).head?
      = some ("import " ++ t.testmodule ++ " as " ++ testalias t.testmodule) ∧
    ((("reload(" ++ testalias t.testmodule ++ ")") ∈ wrappedTestLines t)
      ↔ t.reload_test = true) ∧
    wrappedTestLines t =
      ["import " ++ t.testmodule ++ " as " ++ testalias t.testmodule,
       "from dccautomation.compat import reload"]
      ++ (if t.reload_test then ["reload(" ++ testalias t.testmodule ++ ")"] else [])
      ++ ["tc = " ++ testalias t.testmodule ++ "." ++ t.testcase
            ++ "(\"" ++ t.testfunc ++ "\")",
          "tc._wrapped_test_remote()"] := by
  refine ⟨rfl, rfl, ?_, ?_, ?_⟩
  · rw [wrappedTestLines]
    by_cases hr : t.reload_test = true
    · simp [hr]
    · simp [hr]
  · constructor
    · intro hmem
      cases hr : t.reload_test
      · rw [wrappedTestLines] at hmem
        simp only [hr, if_false, Bool.false_eq_true, List.mem_append, List.mem_cons,
          List.not_mem_nil, or_false] at hmem
        rcases hmem with (h | h) | (h | h)
        · exact absurd h (string_ne_head _ _ 'r' 'i' rfl rfl (by decide))
        · exact absurd h (string_ne_head _ _ 'r' 'f' rfl rfl (by decide))
        · exact absurd h (string_ne_head _ _ 'r' 't' rfl rfl (by decide))
        · exact absurd h (string_ne_head _ _ 'r' 't' rfl rfl (by decide))
      · rfl
    · intro htrue
      rw [wrappedTestLines]
      simp [htrue]
  · rw [wrappedTestLines]
    by_cases hr : t.reload_test = true
    · simp [hr]
    · simp [hr]

/-- Claim C2 (code bug): every call to `start_server_process` fails with
an `AttributeError` before adding the promised entries or spawning,
because `Handshaker.__enter__` reads `common.ENV_HANDSHAKE_ENDPOINT`, an
attribute `common.py` (which defines `ENV_HANDSHAKE`) never defines. -/
theorem claim_C2_launch_raises_attribute_error (config : Config) (w : World) :
    commonStringAttr "ENV_HANDSHAKE_ENDPOINT" = none ∧
    (start_server_process config w).result = PyResult.raised (PyError.attributeError
      "module dccautomation.common has no attribute ENV_HANDSHAKE_ENDPOINT") ∧
    ∀ args env, WEvent.popenSpawn args env ∉ (start_server_process config w).events := by
  refine ⟨rfl, rfl, ?_⟩
  intro args env h
  have he : (start_server_process config w).events = [WEvent.bindRandom w.freshEndpoint] :=
    rfl
  rw [he] at h
  simp at h

/-- Witness for claim C2: the failure at one concrete launch. -/
theorem claim_C2_attribute_error_witness :
    (start_server_process ⟨"maya-2015", ["mayapy"]⟩
        ⟨[], "tcp://127.0.0.1:5555", "tcp://127.0.0.1:61731", false,
         "/opt/tools/dccautomation/bootstrap.py", "/site/packages/zmq/__init__.py", 4242⟩).result
      = PyResult.raised (PyError.attributeError
          "module dccautomation.common has no attribute ENV_HANDSHAKE_ENDPOINT") :=
  (claim_C2_launch_raises_attribute_error ⟨"maya-2015", ["mayapy"]⟩
    ⟨[], "tcp://127.0.0.1:5555", "tcp://127.0.0.1:61731", false,
     "/opt/tools/dccautomation/bootstrap.py", "/site/packages/zmq/__init__.py", 4242⟩).2.1

/-- Concrete launch configuration for the witness theorems. -/
def cfgW : Config := ⟨"maya-2015", ["mayapy", "-m", "dccautomation.server"]⟩

/-- Concrete world for the witness theorems. -/
def worldW : World :=
  ⟨[("PATH", "/usr/bin"), ("PYTHONPATH", "/already/there")],
   "tcp://127.0.0.1:5555", "tcp://127.0.0.1:61731", false,
   "/opt/tools/dccautomation/bootstrap.py", "/site/packages/zmq/__init__.py", 4242⟩

/-- Claim C3 (code bug): the described handshake completion never occurs
in the program as written: every call to `start_server_process` raises
the AttributeError of claim C2 inside `Handshaker.__enter__`, and since
`__enter__` raised, `__exit__` (bootstrap.py lines 34-38) never runs —
the rendezvous socket never receives a message, the empty acknowledgment
is never sent, the socket is never closed, and no `ServerProc` carrying
a learned endpoint is ever returned, so no launch ever succeeds for the
claim to hold of. -/
theorem claim_C3_handshake_never_completes (config : Config) (w : World) :
    ((start_server_process config w).events.filter (fun e => isRecvEvent e)) = [] ∧
    WEvent.sendMsg "" ∉ (start_server_process config w).events ∧
    WEvent.closeSocket ∉ (start_server_process config w).events ∧
    ∀ sp : ServerProc, (start_server_process config w).result ≠ PyResult.ok sp := by
  have he : (start_server_process config w).events = [WEvent.bindRandom w.freshEndpoint] :=
    rfl
  refine ⟨?_, ?_, ?_, ?_⟩
  · rw [he]
    rfl
  · rw [he]
    simp
  · rw [he]
    simp
  · intro sp h
    have hr : (start_server_process config w).result
        = PyResult.raised (PyError.attributeError
            "module dccautomation.common has no attribute ENV_HANDSHAKE_ENDPOINT") := rfl
    rw [hr] at h
    exact PyResult.noConfusion h

/-- Witness for claim C3 at a concrete configuration and world. -/
theorem claim_C3_never_completes_witness :
    ((start_server_process cfgW worldW).events.filter (fun e => isRecvEvent e)) = [] ∧
    (start_server_process cfgW worldW).result
      ≠ PyResult.ok ⟨⟨worldW.newPid⟩, worldW.appEndpoint, cfgW⟩ :=
  ⟨(claim_C3_handshake_never_completes cfgW worldW).1,
    (claim_C3_handshake_never_completes cfgW worldW).2.2.2
      ⟨⟨worldW.newPid⟩, worldW.appEndpoint, cfgW⟩⟩

/-- Claim C6 (code bug): no environment is ever handed to a spawned
process in the program as written: every call to `start_server_process`
raises the AttributeError of claim C2 before the PYTHONPATH extension
code of bootstrap.py lines 44-49 runs and before `subprocess.Popen` is
reached, so there exists no spawned-process environment whose PYTHONPATH
entry could extend the driver's. -/
theorem claim_C6_no_spawned_environment (config : Config) (w : World) :
    ((start_server_process config w).events.filter (fun e => isSpawnEvent e)) = [] ∧
    (start_server_process config w).result = PyResult.raised (PyError.attributeError
      "module dccautomation.common has no attribute ENV_HANDSHAKE_ENDPOINT") :=
  ⟨rfl, rfl⟩

/-- Witness for claim C6 at a concrete configuration and world. -/
theorem claim_C6_no_environment_witness :
    ((start_server_process cfgW worldW).events.filter (fun e => isSpawnEvent e)) = [] :=
  (claim_C6_no_spawned_environment cfgW worldW).1

/-- Claim C7 (code bug): in the program as written no launch ever
registers the kill cleanup nor returns a server handle: every call to
`start_server_process` raises the AttributeError of claim C2 before
`subprocess.Popen` and `atexit.register(proc.kill)` (bootstrap.py lines
50-51) are reached, so no driver-exit kill is ever registered and no
`ServerProc` is ever returned. -/
theorem claim_C7_no_atexit_no_handle (config : Config) (w : World) :
    (∀ p : Nat, WEvent.atexitRegisterKill p ∉ (start_server_process config w).events) ∧
    ∀ sp : ServerProc, (start_server_process config w).result ≠ PyResult.ok sp := by
  have he : (start_server_process config w).events = [WEvent.bindRandom w.freshEndpoint] :=
    rfl
  constructor
  · intro p h
    rw [he] at h
    simp at h
  · intro sp h
    have hr : (start_server_process config w).result
        = PyResult.raised (PyError.attributeError
            "module dccautomation.common has no attribute ENV_HANDSHAKE_ENDPOINT") := rfl
    rw [hr] at h
    exact PyResult.noConfusion h

/-- Witness for claim C7 at a concrete configuration and world. -/
theorem claim_C7_no_atexit_witness :
    WEvent.atexitRegisterKill worldW.newPid ∉ (start_server_process cfgW worldW).events ∧
    (start_server_process cfgW worldW).result
      ≠ PyResult.ok ⟨⟨worldW.newPid⟩, worldW.appEndpoint, cfgW⟩ :=
  ⟨(claim_C7_no_atexit_no_handle cfgW worldW).1 worldW.newPid,
    (claim_C7_no_atexit_no_handle cfgW worldW).2
      ⟨⟨worldW.newPid⟩, worldW.appEndpoint, cfgW⟩⟩

/-- Claim C9: `start_server_process` never writes back into the driver's
own environment — whether it raises (the faithful embedding) or runs the
full pipeline (the counterfactual repaired variant), `os.environ` afterwards is
what it was before, and the handshake-address, identity and PYTHONPATH
entries land only in the dictionary handed to the spawned process. -/
theorem claim_C9_os_environ_unchanged (config : Config) (w : World) :
    (start_server_process config w).osEnvironAfter = w.osEnviron ∧
    (start_server_process_model config w).osEnvironAfter = w.osEnviron ∧
    (w.popenRaises = false →
      WEvent.popenSpawn config.popen_args (spawnEnv ENV_HANDSHAKE config w)
        ∈ (start_server_process_model config w).events ∧
      envGet (spawnEnv ENV_HANDSHAKE config w) ENV_HANDSHAKE = some w.freshEndpoint ∧
      envGet (spawnEnv ENV_HANDSHAKE config w) ENV_CONFIGNAME = some config.cfgname ∧
      envGet (spawnEnv ENV_HANDSHAKE config w) "PYTHONPATH"
        = some (((envGet w.osEnviron "PYTHONPATH").getD "") ++ pathsep
            ++ one_up_dir w.bootstrapFile ++ pathsep ++ one_up_dir w.zmqFile)) := by
  refine ⟨rfl, ?_, ?_⟩
  · rw [start_server_process_model, launchWithKey]
    by_cases hp : w.popenRaises = true
    · simp [hp]
    · simp [hp]
  · intro hp
    refine ⟨?_, ?_, ?_, ?_⟩
    · rw [start_server_process_model, launchWithKey]
      simp [hp]
    · simp only [spawnEnv]
      rw [envGet_envSet_ne _ _ _ _ (by decide), envGet_envSet_ne _ _ _ _ (by decide),
        envGet_envSet_self]
    · simp only [spawnEnv]
      rw [envGet_envSet_ne _ _ _ _ (by decide), envGet_envSet_self]
    · simp only [spawnEnv]
      rw [envGet_envSet_self, envGet_envSet_ne _ _ _ _ (by decide),
        envGet_envSet_ne _ _ _ _ (by decide)]

/-- Witness for claim C9 at a concrete configuration and world. -/
theorem claim_C9_environ_witness :
    worldW.popenRaises = false ∧
    (start_server_process cfgW worldW).osEnvironAfter = worldW.osEnviron ∧
    envGet (spawnEnv ENV_HANDSHAKE cfgW worldW) ENV_HANDSHAKE = some worldW.freshEndpoint :=
  ⟨rfl, (claim_C9_os_environ_unchanged cfgW worldW).1,
    ((claim_C9_os_environ_unchanged cfgW worldW).2.2 rfl).2.1⟩

/-- Claim C10: `create_client` raises `RuntimeError` when the class
attribute `config` is unset and fails its assertion when `start_proc` is
false, in both cases with an empty event trace — before any spawn — so a
process can be spawned only when `config` is set and `start_proc` holds. -/
theorem claim_C10_create_client_guards (cls : TestClassAttrs) (w : World) :
    (cls.config = none →
      (create_client cls w).result = PyResult.raised (PyError.runtimeError
        "config must be set or this method must be overridden.") ∧
      (create_client cls w).events = []) ∧
    (∀ c, cls.config = some c → cls.start_proc = false →
      (create_client cls w).result = PyResult.raised (PyError.assertionError
        "Not starting proc is not yet supported.") ∧
      (create_client cls w).events = []) ∧
    (∀ args env, WEvent.popenSpawn args env ∈ (create_client cls w).events →
      cls.config ≠ none ∧ cls.start_proc = true) := by
  refine ⟨?_, ?_, ?_⟩
  · intro hnone
    simp [create_client, hnone]
  · intro c hc hsp
    simp [create_client, hc, hsp]
  · intro args env hmem
    match hc : cls.config with
    | none =>
      rw [create_client] at hmem
      simp [hc] at hmem
    | some c =>
      by_cases hsp : cls.start_proc = false
      · rw [create_client] at hmem
        simp [hc, hsp] at hmem
      · refine ⟨by simp [hc], by simpa using hsp⟩

/-- Witness for claim C10: both guard paths at concrete inputs. -/
theorem claim_C10_guards_witness :
    ((create_client ⟨none, true⟩ worldW).result = PyResult.raised (PyError.runtimeError
        "config must be set or this method must be overridden.") ∧
      (create_client ⟨none, true⟩ worldW).events = []) ∧
    ((create_client ⟨some cfgW, false⟩ worldW).result
        = PyResult.raised (PyError.assertionError
            "Not starting proc is not yet supported.") ∧
      (create_client ⟨some cfgW, false⟩ worldW).events = []) :=
  ⟨(claim_C10_create_client_guards ⟨none, true⟩ worldW).1 rfl,
    (claim_C10_create_client_guards ⟨some cfgW, false⟩ worldW).2.1 cfgW rfl rfl⟩

/-- Witness for claim C4 at a concrete input (body raising, one cleanup). -/
theorem claim_C4_teardown_witness :
    ∃ pre post, (wrappedTestRemote ⟨[], false, true, false, [(7, false)]⟩).1
        = pre ++ REvent.tearDownRun :: post ∧
      REvent.tearDownRun ∉ pre ∧ REvent.tearDownRun ∉ post ∧
      REvent.bodyRun ∉ post ∧ REvent.setUpRun ∉ post :=
  claim_C4_teardown_always_after_body ⟨[], false, true, false, [(7, false)]⟩

/-- Witness for claim C5 at a concrete invocation. -/
theorem claim_C5_exec_request_witness :
    (wrappedTest ⟨"tests.test_maya", "MayaTest", "test_make_cube", true⟩).length = 1 ∧
    (("reload(" ++ testalias "tests.test_maya" ++ ")")
        ∈ wrappedTestLines ⟨"tests.test_maya", "MayaTest", "test_make_cube", true⟩
      ↔ true = true) :=
  ⟨(claim_C5_single_exec_request_structure
      ⟨"tests.test_maya", "MayaTest", "test_make_cube", true⟩).1,
    (claim_C5_single_exec_request_structure
      ⟨"tests.test_maya", "MayaTest", "test_make_cube", true⟩).2.2.2.1⟩

end Dcc
